import Mathlib

/-!
Verification of the credential lifecycle, request dispatcher and request
builder of a Google Calendar/Tasks command-line client
(`gcal_api.py`).  Pure Python functions are embedded as Lean functions;
the filesystem and the HTTP transport appear as explicit parameters
(oracles), and Python exceptions are modelled with `Except`.
-/

/-- JSON values as produced by Python's `json` module.  Python `None`
(the result of parsing the literal `null`, and also the value returned
by `load_json_input` when neither source is supplied) is `Json.null`. -/
inductive Json where
  | null
  | bool (b : Bool)
  | num (n : Int)
  | str (s : String)
  | arr (items : List Json)
  | obj (fields : List (String × Json))

/-- Python exceptions raised by the embedded code. -/
inductive PyErr where
  | valueError (msg : String)
  | fileNotFound (msg : String)
  | jsonDecodeError (msg : String)
deriving DecidableEq

/-- Python truthiness of an `Optional[str]`: `None` and `""` are falsy. -/
def pyTruthy : Option String → Bool
  | none => false
  | some s => !(s == "")

/-- Python's `needle in hay` on strings: substring containment. -/
def pyIn (needle hay : String) : Bool :=
  hay.data.tails.any (fun t => List.isPrefixOf needle.data t)

/-- Python's `s.startswith(pre)`. -/
def pyStartsWith (s pre : String) : Bool :=
  List.isPrefixOf pre.data s.data

/-- Python's slice `s[n:]`. -/
def pySlice (s : String) (n : Nat) : String :=
  String.mk (s.data.drop n)

/-- Auxiliary for `pySplit`: accumulates the current chunk (reversed). -/
def pySplitAux (c : Char) : List Char → List Char → List String
  | [], acc => [String.mk acc.reverse]
  | x :: xs, acc =>
    if x == c then String.mk acc.reverse :: pySplitAux c xs []
    else pySplitAux c xs (x :: acc)

/-- Python's `s.split(sep)` for a one-character separator:
`"".split(",") = [""]`, `",".split(",") = ["", ""]`. -/
def pySplit (s : String) (c : Char) : List String :=
  pySplitAux c s.data []

/-- Is this JSON value Python `None`?  (`body is None`). -/
def Json.isNull : Json → Bool
  | .null => true
  | _ => false

/-- Top-level keys of a JSON object, in insertion order. -/
def Json.keys : Json → List String
  | .obj l => l.map Prod.fst
  | _ => []

/-- `load_json_input(raw, path)` from gcal_api.py.  `readFile` and
`parse` stand for `open(...).read()` and `json.loads`, external
collaborators that may raise.  Python returns `None` both when neither
source is supplied and when the parsed JSON is `null`; both are
`Json.null` here. -/
def load_json_input (raw path : Option String)
    (readFile : String → Except PyErr String)
    (parse : String → Except PyErr Json) : Except PyErr Json :=
  if pyTruthy raw && pyTruthy path then
    .error (.valueError "Use only one of --body/--params or --body-file/--params-file")
  else if pyTruthy path then
    match readFile (path.getD "") with
    | .error e => .error e
    | .ok contents => parse contents
  else if pyTruthy raw then
    parse (raw.getD "")
  else
    .ok Json.null

/-- A stored OAuth credential record, as the external
`google.oauth2.credentials.Credentials` object exposes it to
`load_credentials`: `expired` is the library's expiry check, and
`refresh_token` is `None`, empty, or a token. -/
structure Credential where
  token : String
  refresh_token : Option String
  expired : Bool

/-- Result of `load_credentials`: the returned credential, the token
file's contents afterwards, and whether the file was rewritten. -/
structure LoadResult where
  creds : Credential
  file : Credential
  wrote : Bool

/-- `load_credentials(token_path, scopes)` from gcal_api.py.  The token
file is `none` when missing, otherwise the credential record it
deserializes to; `refresh` is the external token-endpoint exchange
(`creds.refresh(Request())`), which may raise.  The file is rewritten
(`resolved.write_text(creds.to_json())`) only after a successful
refresh. -/
def load_credentials (file : Option Credential)
    (refresh : Credential → Except PyErr Credential) :
    Except PyErr LoadResult :=
  match file with
  | none => .error (.fileNotFound "Token file not found")
  | some creds =>
    if creds.expired && pyTruthy creds.refresh_token then
      match refresh creds with
      | .error e => .error e
      | .ok refreshed => .ok ⟨refreshed, refreshed, true⟩
    else
      .ok ⟨creds, creds, false⟩

/-- `time_object(value, time_zone)` from gcal_api.py, lines 78-84:
`{"dateTime": value}` when `"T" in value`, with `timeZone` attached
only under `time_zone and ("Z" not in value and "+" not in value and
"-" not in value[10:])`; otherwise `{"date": value}`. -/
def time_object (value : String) (time_zone : Option String) : Json :=
  if pyIn "T" value then
    if pyTruthy time_zone &&
        (!pyIn "Z" value && !pyIn "+" value && !pyIn "-" (pySlice value 10)) then
      Json.obj [("dateTime", Json.str value), ("timeZone", Json.str (time_zone.getD ""))]
    else
      Json.obj [("dateTime", Json.str value)]
  else
    Json.obj [("date", Json.str value)]

/-- Base URL constant from gcal_api.py. -/
def CALENDAR_BASE_URL : String := "https://www.googleapis.com/calendar/v3"

/-- URL resolution at the top of `request` (gcal_api.py lines 53-58):
an `http://`/`https://` target is used verbatim; otherwise a `/` is
prepended when missing and the target is appended to the base URL. -/
def resolve_url (base_url path : String) : String :=
  if pyStartsWith path "http://" || pyStartsWith path "https://" then
    path
  else if pyStartsWith path "/" then
    base_url ++ path
  else
    base_url ++ ("/" ++ path)

/-- An HTTP response as `request` consumes it: status code, the
`Content-Type` header (`""` when absent), the raw body text, and
`json`, the value `response.json()` parses the body to (the parse
itself is the transport library's). -/
structure HttpResponse where
  status_code : Nat
  content_type : String
  text : String
  json : Json

/-- Outcome of the dispatcher: a success payload, or the
`RuntimeError("HTTP {status}: ...")` raise carrying the status code and
the error payload it renders. -/
inductive RequestResult where
  | ok (payload : Json)
  | httpError (status : Nat) (payload : Json)

/-- Response classification in `request` (gcal_api.py lines 60-75), in
source order: status ≥ 400, then 204, then content type. -/
def classify_response (r : HttpResponse) : RequestResult :=
  if 400 ≤ r.status_code then
    if pyIn "application/json" r.content_type then
      .httpError r.status_code r.json
    else
      .httpError r.status_code (Json.obj [("error", Json.str r.text)])
  else if r.status_code = 204 then
    .ok (Json.obj [("status", Json.str "deleted")])
  else if pyIn "application/json" r.content_type then
    .ok r.json
  else
    .ok (Json.obj [("text", Json.str r.text)])

/-- A fully-built HTTP request: what `request` hands to
`session.request` (`params`/`body` are `Json.null` for Python `None`). -/
structure RequestDescriptor where
  method : String
  path : String
  params : Json
  body : Json

/-- `request(session, method, path, params, body, base_url)` from
gcal_api.py: resolve the URL, perform the call through the transport
oracle, classify the response. -/
def request (transport : String → String → Json → Json → HttpResponse)
    (method path : String) (params body : Json) (base_url : String) :
    RequestResult :=
  classify_response (transport method (resolve_url base_url path) params body)

/-- The inputs of `cmd_create_event` (argparse `args`): optional flags
are `None` or a string, `recurrence` is an `append`-action list
(default `[]`), `calendar_id` is required. -/
structure CreateEventArgs where
  calendar_id : String
  summary : Option String
  start : Option String
  end_ : Option String
  time_zone : Option String
  location : Option String
  description : Option String
  attendees : Option String
  recurrence : List String
  send_updates : Option String
  body : Option String
  body_file : Option String

/-- The structured-field body assembled by `cmd_create_event` when no
inline/file body is given (gcal_api.py lines 172-184), in Python dict
insertion order. -/
def assemble_event_body (a : CreateEventArgs) : Json :=
  Json.obj (
    [("summary", Json.str (a.summary.getD "")),
     ("start", time_object (a.start.getD "") a.time_zone),
     ("end", time_object (a.end_.getD "") a.time_zone)]
    ++ (if pyTruthy a.location then [("location", Json.str (a.location.getD ""))] else [])
    ++ (if pyTruthy a.description then [("description", Json.str (a.description.getD ""))] else [])
    ++ (if pyTruthy a.attendees then
          [("attendees", Json.arr (((pySplit (a.attendees.getD "") ',').filter
              (fun e => !(e == ""))).map (fun e => Json.obj [("email", Json.str e)])))]
        else [])
    ++ (if a.recurrence.isEmpty then []
        else [("recurrence", Json.arr (a.recurrence.map Json.str))]))

/-- The request `cmd_create_event` builds (gcal_api.py lines 166-188),
up to but not including the network call: resolve the body (inline/file
override, else structured fields with the required-field check), then
the path and `sendUpdates` params. -/
def cmd_create_event_descriptor (a : CreateEventArgs)
    (readFile : String → Except PyErr String)
    (parse : String → Except PyErr Json) : Except PyErr RequestDescriptor :=
  match load_json_input a.body a.body_file readFile parse with
  | .error e => .error e
  | .ok body0 =>
    match (if body0.isNull then
            (if !pyTruthy a.summary || !pyTruthy a.start || !pyTruthy a.end_ then
              Except.error (PyErr.valueError
                "--summary, --start, and --end are required unless --body is provided")
            else
              Except.ok (assemble_event_body a))
          else
            Except.ok body0 : Except PyErr Json) with
    | .error e => .error e
    | .ok body =>
      .ok { method := "POST"
            path := "/calendars/" ++ a.calendar_id ++ "/events"
            params := if pyTruthy a.send_updates then
                        Json.obj [("sendUpdates", Json.str (a.send_updates.getD ""))]
                      else Json.null
            body := body }

/-- `cmd_create_event` end to end, in source order (gcal_api.py lines
166-188): FIRST `session_from_token` establishes the session — loading
the token file, possibly exchanging the refresh token over the network
and rewriting the file — THEN the body is resolved and the request
built, and only then the transport is consulted.  Returns the token
file's final contents paired with the outcome, so a rewrite that
happened before a later error stays observable. -/
def run_create_event (tokenFile : Option Credential)
    (refresh : Credential → Except PyErr Credential)
    (a : CreateEventArgs)
    (readFile : String → Except PyErr String)
    (parse : String → Except PyErr Json)
    (transport : Credential → RequestDescriptor → HttpResponse) :
    Option Credential × Except PyErr RequestResult :=
  match load_credentials tokenFile refresh with
  | .error e => (tokenFile, .error e)
  | .ok lr =>
    match cmd_create_event_descriptor a readFile parse with
    | .error e => (some lr.file, .error e)
    | .ok d => (some lr.file, .ok (classify_response (transport lr.creds d)))

/-- Claim C6: the four documented time-encoding examples: a bare date
yields a pure date object; a naive date-time gets the fallback zone; a
`Z`-suffixed or offset-suffixed date-time gets no `timeZone` field even
when a fallback zone is supplied. -/
theorem time_object_examples :
    time_object "2024-01-01" (some "America/New_York") =
      Json.obj [("date", Json.str "2024-01-01")]
    ∧ time_object "2024-01-01T10:00:00" (some "America/New_York") =
      Json.obj [("dateTime", Json.str "2024-01-01T10:00:00"),
                ("timeZone", Json.str "America/New_York")]
    ∧ time_object "2024-01-01T10:00:00Z" (some "America/New_York") =
      Json.obj [("dateTime", Json.str "2024-01-01T10:00:00Z")]
    ∧ time_object "2024-01-01T10:00:00-05:00" (some "America/New_York") =
      Json.obj [("dateTime", Json.str "2024-01-01T10:00:00-05:00")] :=
  ⟨rfl, rfl, rfl, rfl⟩

/-- Claim C2, counterexample: `"+2024-01-01T10:00:00"` contains a time
marker, no `Z`, and no `+` or `-` after the 10th character, yet
`time_object` attaches no `timeZone` field, because the code checks
`"+" not in value` over the whole string, not over `value[10:]`. -/
theorem time_object_plus_counterexample :
    pyIn "T" "+2024-01-01T10:00:00" = true
    ∧ pyIn "Z" "+2024-01-01T10:00:00" = false
    ∧ pyIn "+" (pySlice "+2024-01-01T10:00:00" 10) = false
    ∧ pyIn "-" (pySlice "+2024-01-01T10:00:00" 10) = false
    ∧ time_object "+2024-01-01T10:00:00" (some "America/New_York") =
      Json.obj [("dateTime", Json.str "+2024-01-01T10:00:00")] :=
  ⟨by decide, by decide, by decide, by decide, rfl⟩

/-- Claim C2 (amended): for a value with a time marker and a truthy
fallback zone, the `timeZone` field is attached exactly when the value
contains no `Z` anywhere, no `+` anywhere, and no `-` after the 10th
character; a `Z`, a `+` anywhere (including the first 10 characters),
or a `-` after the 10th character each suppress it. -/
theorem time_object_timezone_condition (value : String) (tz : Option String)
    (hT : pyIn "T" value = true) (htz : pyTruthy tz = true) :
    (pyIn "Z" value = false → pyIn "+" value = false →
       pyIn "-" (pySlice value 10) = false →
       time_object value tz =
         Json.obj [("dateTime", Json.str value), ("timeZone", Json.str (tz.getD ""))])
    ∧ (pyIn "Z" value = true →
       time_object value tz = Json.obj [("dateTime", Json.str value)])
    ∧ (pyIn "+" value = true →
       time_object value tz = Json.obj [("dateTime", Json.str value)])
    ∧ (pyIn "-" (pySlice value 10) = true →
       time_object value tz = Json.obj [("dateTime", Json.str value)]) := by
  refine ⟨fun hZ hP hM => ?_, fun h => ?_, fun h => ?_, fun h => ?_⟩ <;>
    simp [time_object, hT, htz, *]

/-- Claim C2 witness: at `"2024-01-01T10:00:00Z"` with fallback zone
`"UTC"`, the `Z` suppresses the `timeZone` field. -/
theorem time_object_timezone_condition_witness :
    time_object "2024-01-01T10:00:00Z" (some "UTC") =
      Json.obj [("dateTime", Json.str "2024-01-01T10:00:00Z")] :=
  (time_object_timezone_condition "2024-01-01T10:00:00Z" (some "UTC")
    (by decide) (by decide)).2.1 (by decide)

/-- Claim C8, counterexample: the relative target `"//a"` already
starts with a slash, so the code joins it unchanged and the resolved
URL keeps both leading slashes — the target is not normalized to begin
with exactly one leading slash. -/
theorem resolve_url_double_slash_counterexample :
    pyStartsWith "//a" "http://" = false
    ∧ pyStartsWith "//a" "https://" = false
    ∧ pyStartsWith "//a" "//" = true
    ∧ resolve_url CALENDAR_BASE_URL "//a" =
      "https://www.googleapis.com/calendar/v3//a" :=
  ⟨by decide, by decide, by decide, rfl⟩

/-- Claim C8 (amended): a target beginning with `http://` or
`https://` is used verbatim and the base URL is ignored; every other
target is concatenated onto the base URL after a `/` is prepended only
when the target does not already start with one (a target starting
with several slashes keeps them all). -/
theorem resolve_url_spec (base path : String) :
    (pyStartsWith path "http://" = true ∨ pyStartsWith path "https://" = true →
       resolve_url base path = path)
    ∧ (pyStartsWith path "http://" = false → pyStartsWith path "https://" = false →
        (pyStartsWith path "/" = true → resolve_url base path = base ++ path)
        ∧ (pyStartsWith path "/" = false →
           resolve_url base path = base ++ ("/" ++ path))) := by
  refine ⟨fun h => ?_, fun h1 h2 => ⟨fun h3 => ?_, fun h3 => ?_⟩⟩
  · rcases h with h | h <;> simp [resolve_url, h]
  · simp [resolve_url, h1, h2, h3]
  · simp [resolve_url, h1, h2, h3]

/-- Claim C8 witness: the slash-less target `"events"` gets one slash
prepended and is joined onto the calendar base URL. -/
theorem resolve_url_spec_witness :
    resolve_url CALENDAR_BASE_URL "events" =
      CALENDAR_BASE_URL ++ ("/" ++ "events") :=
  ((resolve_url_spec CALENDAR_BASE_URL "events").2 (by decide) (by decide)).2
    (by decide)

/-- Claim C3: the dispatcher classifies responses in order: status
≥ 400 fails with the status and the parsed JSON body (JSON content
type) or an `error`-wrapped raw text payload; 204 succeeds with the
`deleted` sentinel regardless of body; otherwise a JSON content type
yields the parsed body and anything else a `text`-wrapped raw body. -/
theorem classify_response_spec (r : HttpResponse) :
    (400 ≤ r.status_code → pyIn "application/json" r.content_type = true →
       classify_response r = .httpError r.status_code r.json)
    ∧ (400 ≤ r.status_code → pyIn "application/json" r.content_type = false →
       classify_response r =
         .httpError r.status_code (Json.obj [("error", Json.str r.text)]))
    ∧ (r.status_code = 204 →
       classify_response r = .ok (Json.obj [("status", Json.str "deleted")]))
    ∧ (r.status_code < 400 → r.status_code ≠ 204 →
       pyIn "application/json" r.content_type = true →
       classify_response r = .ok r.json)
    ∧ (r.status_code < 400 → r.status_code ≠ 204 →
       pyIn "application/json" r.content_type = false →
       classify_response r = .ok (Json.obj [("text", Json.str r.text)])) := by
  refine ⟨fun h hct => ?_, fun h hct => ?_, fun h => ?_,
          fun h h204 hct => ?_, fun h h204 hct => ?_⟩
  · simp [classify_response, h, hct]
  · simp [classify_response, h, hct]
  · simp [classify_response, h]
  · have h' : ¬ 400 ≤ r.status_code := by omega
    simp [classify_response, h', h204, hct]
  · have h' : ¬ 400 ≤ r.status_code := by omega
    simp [classify_response, h', h204, hct]

/-- Claim C3 witness: a 204 response with a JSON content type and a
non-empty body still yields the `deleted` sentinel payload. -/
theorem classify_response_spec_witness :
    classify_response
        ⟨204, "application/json", "stale body", Json.obj [("a", Json.num 1)]⟩ =
      .ok (Json.obj [("status", Json.str "deleted")]) :=
  (classify_response_spec
    ⟨204, "application/json", "stale body", Json.obj [("a", Json.num 1)]⟩).2.2.1 rfl

/-- Claim C1, counterexample: an expired credential with no refresh
token loads successfully — `load_credentials` returns the expired
record unchanged instead of raising a credential error (the
`if creds.expired and creds.refresh_token` guard merely skips the
refresh). -/
theorem load_credentials_expired_no_refresh_counterexample :
    (Credential.mk "expired-token" none true).expired = true
    ∧ pyTruthy (Credential.mk "expired-token" none true).refresh_token = false
    ∧ load_credentials (some (Credential.mk "expired-token" none true))
        (fun _ => .error (.valueError "refresh not attempted")) =
      .ok ⟨Credential.mk "expired-token" none true,
           Credential.mk "expired-token" none true, false⟩ :=
  ⟨rfl, rfl, rfl⟩

/-- Claim C1 (amended): for every expired credential record without a
(truthy) refresh token, `load_credentials` raises no error: it returns
the expired credential unchanged, never invokes the refresh exchange,
and never rewrites the token file; the authentication failure, if any,
surfaces only later, outside `load_credentials`. -/
theorem load_credentials_expired_no_refresh (c : Credential)
    (refresh : Credential → Except PyErr Credential)
    (hexp : c.expired = true) (hrt : pyTruthy c.refresh_token = false) :
    load_credentials (some c) refresh = .ok ⟨c, c, false⟩ := by
  simp [load_credentials, hexp, hrt]

/-- Claim C1 witness: an expired credential whose refresh token is the
empty string (falsy) is returned unchanged with no file write. -/
theorem load_credentials_expired_no_refresh_witness :
    load_credentials (some ⟨"tok2", some "", true⟩)
        (fun _ => .error (.valueError "unused")) =
      .ok ⟨⟨"tok2", some "", true⟩, ⟨"tok2", some "", true⟩, false⟩ :=
  load_credentials_expired_no_refresh ⟨"tok2", some "", true⟩
    (fun _ => .error (.valueError "unused")) rfl rfl

/-- Claim C9: a credential record with a valid (non-expired) access
token is returned unchanged by `load_credentials`, the refresh exchange
is never consulted, and the token file is not rewritten. -/
theorem load_credentials_valid_unchanged (c : Credential)
    (refresh : Credential → Except PyErr Credential)
    (h : c.expired = false) :
    load_credentials (some c) refresh = .ok ⟨c, c, false⟩ := by
  simp [load_credentials, h]

/-- Claim C9 witness: a concrete valid credential (with a refresh
token present) loads unchanged with no file write. -/
theorem load_credentials_valid_unchanged_witness :
    load_credentials (some ⟨"tok", some "refresh", false⟩)
        (fun _ => .error (.valueError "unused")) =
      .ok ⟨⟨"tok", some "refresh", false⟩, ⟨"tok", some "refresh", false⟩, false⟩ :=
  load_credentials_valid_unchanged ⟨"tok", some "refresh", false⟩
    (fun _ => .error (.valueError "unused")) rfl

/-- Claim C4: supplying both a non-empty inline JSON string and a
non-empty file path makes the resolver raise the conflicting-sources
usage error unconditionally — for every file-reading and parsing
behaviour, so also when both contents would parse identically — and
once the credential session is established, the create-event command
fails the same way for every transport, so before the API request. -/
theorem load_json_input_conflict (raw path : Option String)
    (readFile : String → Except PyErr String)
    (parse : String → Except PyErr Json)
    (hr : pyTruthy raw = true) (hp : pyTruthy path = true) :
    load_json_input raw path readFile parse =
      .error (.valueError
        "Use only one of --body/--params or --body-file/--params-file")
    ∧ ∀ (tokenFile : Option Credential)
        (refresh : Credential → Except PyErr Credential) (lr : LoadResult)
        (a : CreateEventArgs)
        (transport : Credential → RequestDescriptor → HttpResponse),
        load_credentials tokenFile refresh = .ok lr →
        a.body = raw → a.body_file = path →
        run_create_event tokenFile refresh a readFile parse transport =
          (some lr.file, .error (.valueError
            "Use only one of --body/--params or --body-file/--params-file")) := by
  have h1 : load_json_input raw path readFile parse =
      .error (.valueError
        "Use only one of --body/--params or --body-file/--params-file") := by
    simp [load_json_input, hr, hp]
  refine ⟨h1, fun tokenFile refresh lr a transport hload hb hbf => ?_⟩
  have h2 : cmd_create_event_descriptor a readFile parse =
      .error (.valueError
        "Use only one of --body/--params or --body-file/--params-file") := by
    unfold cmd_create_event_descriptor
    rw [hb, hbf, h1]
  unfold run_create_event
  rw [hload, h2]

/-- Claim C4 witness: identical inline and file contents (both parse
to the same empty object) still raise the usage error. -/
theorem load_json_input_conflict_witness :
    load_json_input (some "{}") (some "body.json")
        (fun _ => .ok "{}") (fun _ => .ok (Json.obj [])) =
      .error (.valueError
        "Use only one of --body/--params or --body-file/--params-file") :=
  (load_json_input_conflict (some "{}") (some "body.json")
    (fun _ => .ok "{}") (fun _ => .ok (Json.obj [])) rfl rfl).1

/-- Claim C5: with neither source supplied the resolver returns the
absent marker (`Json.null`), which differs from the empty object; and
an inline body that parses to `{}` is passed through as the request
body by create-event without triggering structured-field assembly
(whatever the structured flags hold). -/
theorem resolver_absent_distinct_empty (a : CreateEventArgs)
    (readFile : String → Except PyErr String)
    (parse : String → Except PyErr Json) (s : String)
    (hs : a.body = some s) (hsne : (s == "") = false)
    (hbf : pyTruthy a.body_file = false)
    (hparse : parse s = .ok (Json.obj [])) :
    load_json_input none none readFile parse = .ok Json.null
    ∧ Json.null ≠ Json.obj []
    ∧ cmd_create_event_descriptor a readFile parse =
        .ok { method := "POST"
              path := "/calendars/" ++ a.calendar_id ++ "/events"
              params := if pyTruthy a.send_updates then
                          Json.obj [("sendUpdates", Json.str (a.send_updates.getD ""))]
                        else Json.null
              body := Json.obj [] } := by
  have hr : pyTruthy a.body = true := by
    rw [hs]; simp [pyTruthy, hsne]
  have h1 : load_json_input a.body a.body_file readFile parse = .ok (Json.obj []) := by
    simp [load_json_input, hr, hbf]
    rw [hs]
    simp [hparse]
  refine ⟨by simp [load_json_input, pyTruthy], fun h => Json.noConfusion h, ?_⟩
  unfold cmd_create_event_descriptor
  rw [h1]
  simp [Json.isNull]

/-- Claim C5 witness: an inline `"{}"` body (parsing to the empty
object) is sent as the body even though no structured field is set. -/
theorem resolver_absent_distinct_empty_witness :
    cmd_create_event_descriptor
        { calendar_id := "primary", summary := none, start := none, end_ := none,
          time_zone := none, location := none, description := none,
          attendees := none, recurrence := [], send_updates := none,
          body := some "{}", body_file := none }
        (fun _ => .error (.fileNotFound "unused"))
        (fun _ => .ok (Json.obj [])) =
      .ok { method := "POST", path := "/calendars/primary/events",
            params := Json.null, body := Json.obj [] } := by
  have h := (resolver_absent_distinct_empty
    { calendar_id := "primary", summary := none, start := none, end_ := none,
      time_zone := none, location := none, description := none,
      attendees := none, recurrence := [], send_updates := none,
      body := some "{}", body_file := none }
    (fun _ => .error (.fileNotFound "unused"))
    (fun _ => .ok (Json.obj [])) "{}" rfl rfl rfl rfl).2.2
  simpa using h

/-- Claim C10: an inline body whose text parses to JSON `null` is
indistinguishable from supplying no body at all: the resolver returns
the absent marker, and create-event behaves exactly as if `--body` had
been omitted (falling back to structured-field assembly and its
required-field check). -/
theorem inline_null_same_as_absent (a : CreateEventArgs)
    (readFile : String → Except PyErr String)
    (parse : String → Except PyErr Json) (s : String)
    (hs : a.body = some s) (hsne : (s == "") = false)
    (hbf : pyTruthy a.body_file = false)
    (hparse : parse s = .ok Json.null) :
    load_json_input a.body a.body_file readFile parse = .ok Json.null
    ∧ cmd_create_event_descriptor a readFile parse =
        cmd_create_event_descriptor { a with body := none } readFile parse := by
  have hr : pyTruthy a.body = true := by
    rw [hs]; simp [pyTruthy, hsne]
  have h1 : load_json_input a.body a.body_file readFile parse = .ok Json.null := by
    simp [load_json_input, hr, hbf]
    rw [hs]
    simp [hparse]
  have hb0 : pyTruthy (none : Option String) = false := rfl
  have h2 : load_json_input ({ a with body := none } : CreateEventArgs).body
      ({ a with body := none } : CreateEventArgs).body_file readFile parse =
      .ok Json.null := by
    simp [load_json_input, hb0, hbf]
  refine ⟨h1, ?_⟩
  unfold cmd_create_event_descriptor
  rw [h1, h2]
  rfl

/-- Claim C10 witness: the literal inline text `"null"` (parsing to
JSON `null`) makes create-event behave exactly as with no `--body`:
both raise the missing-required-fields error here. -/
theorem inline_null_same_as_absent_witness :
    cmd_create_event_descriptor
        { calendar_id := "primary", summary := none, start := none, end_ := none,
          time_zone := none, location := none, description := none,
          attendees := none, recurrence := [], send_updates := none,
          body := some "null", body_file := none }
        (fun _ => .error (.fileNotFound "unused"))
        (fun _ => .ok Json.null) =
      cmd_create_event_descriptor
        { calendar_id := "primary", summary := none, start := none, end_ := none,
          time_zone := none, location := none, description := none,
          attendees := none, recurrence := [], send_updates := none,
          body := none, body_file := none }
        (fun _ => .error (.fileNotFound "unused"))
        (fun _ => .ok Json.null) := by
  have h := (inline_null_same_as_absent
    { calendar_id := "primary", summary := none, start := none, end_ := none,
      time_zone := none, location := none, description := none,
      attendees := none, recurrence := [], send_updates := none,
      body := some "null", body_file := none }
    (fun _ => .error (.fileNotFound "unused"))
    (fun _ => .ok Json.null) "null" rfl rfl rfl rfl).2
  simpa using h

/-- Claim C7, counterexample: `cmd_create_event` establishes the
session before resolving the body, so with none of summary/start/end
supplied and no inline body, (1) an expired-but-refreshable credential
is refreshed and the token file rewritten before the
missing-required-fields error surfaces, (2) a failing token-refresh
exchange preempts that error entirely, and (3) a missing token file
fails with the file-not-found error instead — the command does not
fail with MissingRequiredFields before any network call. -/
theorem cmd_create_event_session_first_counterexample :
    run_create_event (some ⟨"old-token", some "rtok", true⟩)
        (fun _ => .ok ⟨"new-token", some "rtok", false⟩)
        { calendar_id := "primary", summary := none, start := none, end_ := none,
          time_zone := none, location := none, description := none,
          attendees := none, recurrence := [], send_updates := none,
          body := none, body_file := none }
        (fun _ => .error (.fileNotFound "unused"))
        (fun _ => .error (.jsonDecodeError "unused"))
        (fun _ _ => ⟨200, "application/json", "", Json.null⟩) =
      (some ⟨"new-token", some "rtok", false⟩,
       .error (.valueError
         "--summary, --start, and --end are required unless --body is provided"))
    ∧ run_create_event (some ⟨"old-token", some "rtok", true⟩)
        (fun _ => .error (.valueError "token refresh failed"))
        { calendar_id := "primary", summary := none, start := none, end_ := none,
          time_zone := none, location := none, description := none,
          attendees := none, recurrence := [], send_updates := none,
          body := none, body_file := none }
        (fun _ => .error (.fileNotFound "unused"))
        (fun _ => .error (.jsonDecodeError "unused"))
        (fun _ _ => ⟨200, "application/json", "", Json.null⟩) =
      (some ⟨"old-token", some "rtok", true⟩,
       .error (.valueError "token refresh failed"))
    ∧ run_create_event none (fun _ => .error (.valueError "unused"))
        { calendar_id := "primary", summary := none, start := none, end_ := none,
          time_zone := none, location := none, description := none,
          attendees := none, recurrence := [], send_updates := none,
          body := none, body_file := none }
        (fun _ => .error (.fileNotFound "unused"))
        (fun _ => .error (.jsonDecodeError "unused"))
        (fun _ _ => ⟨200, "application/json", "", Json.null⟩) =
      (none, .error (.fileNotFound "Token file not found")) :=
  ⟨rfl, rfl, rfl⟩

/-- Claim C7 (amended): once the credential session is established
(the credential load — which precedes the check and may itself refresh
the token over the network and rewrite the token file — succeeded),
create-event with no inline/file body and none of summary/start/end
supplied fails with the missing-required-fields error for every
transport, so before the API request; and when all three are supplied
it builds a POST whose body holds exactly the keys `summary`, `start`,
`end` plus each optional field actually supplied (location,
description, attendees, recurrence), and no others. -/
theorem cmd_create_event_fields (tokenFile : Option Credential)
    (refresh : Credential → Except PyErr Credential) (lr : LoadResult)
    (a : CreateEventArgs)
    (readFile : String → Except PyErr String)
    (parse : String → Except PyErr Json)
    (hload : load_credentials tokenFile refresh = .ok lr)
    (hb : pyTruthy a.body = false) (hbf : pyTruthy a.body_file = false) :
    (pyTruthy a.summary = false → pyTruthy a.start = false →
     pyTruthy a.end_ = false →
      ∀ transport : Credential → RequestDescriptor → HttpResponse,
        run_create_event tokenFile refresh a readFile parse transport =
          (some lr.file, .error (.valueError
            "--summary, --start, and --end are required unless --body is provided")))
    ∧ (pyTruthy a.summary = true → pyTruthy a.start = true →
       pyTruthy a.end_ = true →
       cmd_create_event_descriptor a readFile parse =
         .ok { method := "POST"
               path := "/calendars/" ++ a.calendar_id ++ "/events"
               params := if pyTruthy a.send_updates then
                           Json.obj [("sendUpdates", Json.str (a.send_updates.getD ""))]
                         else Json.null
               body := assemble_event_body a }
       ∧ Json.keys (assemble_event_body a) =
           ["summary", "start", "end"]
           ++ (if pyTruthy a.location then ["location"] else [])
           ++ (if pyTruthy a.description then ["description"] else [])
           ++ (if pyTruthy a.attendees then ["attendees"] else [])
           ++ (if a.recurrence.isEmpty then [] else ["recurrence"])) := by
  have habs : load_json_input a.body a.body_file readFile parse = .ok Json.null := by
    simp [load_json_input, hb, hbf]
  constructor
  · intro hs hst he transport
    have h2 : cmd_create_event_descriptor a readFile parse =
        .error (.valueError
          "--summary, --start, and --end are required unless --body is provided") := by
      unfold cmd_create_event_descriptor
      rw [habs]
      simp [Json.isNull, hs, hst, he]
    unfold run_create_event
    rw [hload, h2]
  · intro hs hst he
    constructor
    · unfold cmd_create_event_descriptor
      rw [habs]
      simp [Json.isNull, hs, hst, he]
    · unfold assemble_event_body Json.keys
      cases hl : pyTruthy a.location <;> cases hd : pyTruthy a.description <;>
        cases ha : pyTruthy a.attendees <;> cases hrec : a.recurrence.isEmpty <;>
        simp [hl, hd, ha, hrec]

/-- Claim C7 witness: with a valid (non-expired) credential already in
place — so the session step neither refreshes nor rewrites — and none
of summary/start/end supplied, create-event fails with the
missing-required-fields error. -/
theorem cmd_create_event_fields_witness :
    run_create_event (some ⟨"tok", none, false⟩)
        (fun _ => .error (.valueError "unused"))
        { calendar_id := "primary", summary := none, start := none, end_ := none,
          time_zone := none, location := none, description := none,
          attendees := none, recurrence := [], send_updates := none,
          body := none, body_file := none }
        (fun _ => .error (.fileNotFound "unused"))
        (fun _ => .error (.jsonDecodeError "unused"))
        (fun _ _ => ⟨200, "application/json", "", Json.null⟩) =
      (some ⟨"tok", none, false⟩,
       .error (.valueError
         "--summary, --start, and --end are required unless --body is provided")) := by
  have h := ((cmd_create_event_fields (some ⟨"tok", none, false⟩)
    (fun _ => .error (.valueError "unused"))
    ⟨⟨"tok", none, false⟩, ⟨"tok", none, false⟩, false⟩
    { calendar_id := "primary", summary := none, start := none, end_ := none,
      time_zone := none, location := none, description := none,
      attendees := none, recurrence := [], send_updates := none,
      body := none, body_file := none }
    (fun _ => .error (.fileNotFound "unused"))
    (fun _ => .error (.jsonDecodeError "unused"))
    rfl rfl rfl).1 rfl rfl rfl)
    (fun _ _ => ⟨200, "application/json", "", Json.null⟩)
  simpa using h
